import Mathlib

/-
Shallow embedding of the `iced-ext` widget library (multi_pick_list.rs,
progress_bar_ext.rs, square_radio.rs).  The widgets plug into the host GUI
toolkit's widget trait; the host's primitive geometry (points, rectangles,
cursors, lengths, line heights, padding) is embedded here following the host
toolkit's documented behaviour, and every `f32` of the source is modelled as
a rational number `ℚ` (the operations used — comparison, clamp, subtraction,
division, floor, ceil — are exact on the rationals chosen as inputs).
Fallible operations of the source (slice indexing, `unwrap`, `f32::clamp`
with a reversed range) are modelled with `Option`, where `none` stands for a
panic.
-/

namespace IcedExt

/-- A 2-d point of the host toolkit (`iced_core::Point`), with `f32`
coordinates modelled as rationals. -/
structure Point where
  x : ℚ
  y : ℚ
deriving DecidableEq, Repr

/-- An axis-aligned rectangle of the host toolkit (`iced_core::Rectangle`). -/
structure Rectangle where
  x : ℚ
  y : ℚ
  width : ℚ
  height : ℚ
deriving DecidableEq, Repr

/-- Modelled host primitive `Rectangle::contains`: the point is within the
rectangle (closed on the near edges, open on the far edges). -/
def Rectangle.contains (r : Rectangle) (p : Point) : Bool :=
  decide (r.x ≤ p.x) && decide (p.x < r.x + r.width) &&
    decide (r.y ≤ p.y) && decide (p.y < r.y + r.height)

/-- The host's `mouse::Cursor`: either an available position or unavailable. -/
abbrev Cursor : Type := Option Point

/-- Modelled host primitive `Cursor::is_over`: an available cursor position
contained in the bounds. -/
def Cursor.isOver (c : Cursor) (r : Rectangle) : Bool :=
  match c with
  | some p => r.contains p
  | none => false

/-- Modelled host primitive `Cursor::position_in`: the cursor position
relative to the bounds, when the cursor is over them. -/
def Cursor.positionIn (c : Cursor) (r : Rectangle) : Option Point :=
  match c with
  | some p => if r.contains p then some ⟨p.x - r.x, p.y - r.y⟩ else none
  | none => none

/-- Rust `as usize` on a (finite) `f32`: truncation toward zero, saturating
at zero for negative values. -/
def ratToUsize (q : ℚ) : ℕ :=
  ⌊q⌋.toNat

/-- Rust `.ceil() as usize` on a (finite) `f32`. -/
def ceilToUsize (q : ℚ) : ℕ :=
  ⌈q⌉.toNat

/-- Rust `f32::clamp(self, min, max)`: panics (`none`) when `min > max`,
otherwise restricts the value to the interval. -/
def clampF32 (v lo hi : ℚ) : Option ℚ :=
  if lo ≤ hi then some (min (max v lo) hi) else none

/-- The host's `iced_core::Length`. -/
inductive Length where
  | fill
  | fillPortion (factor : ℕ)
  | shrink
  | fixed (amount : ℚ)
deriving DecidableEq, Repr

/-- The host's `text::LineHeight`. -/
inductive LineHeight where
  | relative (factor : ℚ)
  | absolute (pixels : ℚ)
deriving DecidableEq, Repr

/-- `LineHeight::default()` is `Relative(1.3)`. -/
def LineHeight.default : LineHeight := .relative (13 / 10)

/-- Modelled host primitive `LineHeight::to_absolute`. -/
def LineHeight.toAbsolute (lh : LineHeight) (textSize : ℚ) : ℚ :=
  match lh with
  | .relative factor => factor * textSize
  | .absolute pixels => pixels

/-- The host's `iced_core::Padding`. -/
structure Padding where
  top : ℚ
  right : ℚ
  bottom : ℚ
  left : ℚ
deriving DecidableEq, Repr

/-- `Padding::ZERO`. -/
def Padding.zero : Padding := ⟨0, 0, 0, 0⟩

/-- Modelled host primitive `Padding::y()`: vertical padding total. -/
def Padding.y (p : Padding) : ℚ := p.top + p.bottom

/-- The host's `text::Shaping` strategy. -/
inductive Shaping where
  | basic
  | advanced
deriving DecidableEq, Repr

/-- The host's `alignment::Horizontal`. -/
inductive HorizontalAlignment where
  | left
  | center
  | right
deriving DecidableEq, Repr

/-- Mouse buttons of the host's `mouse::Button`. -/
inductive MouseButton where
  | left
  | right
  | middle
  | back
  | forward
  | other
deriving DecidableEq, Repr

/-- The host events the widgets of this repository inspect.  `CursorMoved`
and `FingerPressed` carry positions in the host, but the source code reads
the position from the `cursor` callback parameter instead, so the payloads
are dropped here.  Keyboard modifiers are an opaque bit set, modelled as a
natural number. -/
inductive Event where
  | mouseButtonPressed (button : MouseButton)
  | mouseCursorMoved
  | fingerPressed
  | keyboardModifiersChanged (modifiers : ℕ)
  | windowRedrawRequested
  | other
deriving DecidableEq, Repr

/-- The host's `Shell`, restricted to the operations the source uses:
publishing messages, capturing the current event and requesting a redraw. -/
structure Shell (Message : Type) where
  published : List Message
  eventCaptured : Bool
  redrawRequested : Bool
deriving DecidableEq, Repr

/-- `Shell::publish`. -/
def Shell.publish {Message : Type} (s : Shell Message) (m : Message) : Shell Message :=
  { s with published := s.published ++ [m] }

/-- `Shell::capture_event`. -/
def Shell.captureEvent {Message : Type} (s : Shell Message) : Shell Message :=
  { s with eventCaptured := true }

/-- `Shell::request_redraw`. -/
def Shell.requestRedraw {Message : Type} (s : Shell Message) : Shell Message :=
  { s with redrawRequested := true }

/-- The host's `mouse::Interaction` (the variants relevant here);
`Interaction::default()` is the `None` cursor interaction, modelled as
`idle`. -/
inductive Interaction where
  | idle
  | pointer
  | grab
  | text
deriving DecidableEq, Repr

/-- `mouse::Interaction::default()`. -/
def Interaction.default : Interaction := .idle

end IcedExt

namespace IcedExt

/-! ## ProgressBar (src/progress_bar_ext.rs) -/

/-- The `ProgressBar` widget struct.  Style classes are trait objects in the
source; they are modelled as opaque identifiers. -/
structure ProgressBar (Font : Type) where
  range_start : ℚ
  range_end : ℚ
  value : ℚ
  length : Length
  girth : Length
  is_vertical : Bool
  show_percentage : Bool
  text_size : Option ℚ
  text_line_height : LineHeight
  padding : Padding
  alignment : HorizontalAlignment
  font : Option Font
  styleClass : ℕ

/-- `ProgressBar::DEFAULT_GIRTH`. -/
def ProgressBar.DEFAULT_GIRTH : ℚ := 30

/-- `ProgressBar::new(range, value)`: clamps the value into the range
(`f32::clamp` panics — `none` — when the range start exceeds its end) and
fills in the default configuration. -/
def ProgressBar.new {Font : Type} (rangeStart rangeEnd value : ℚ) :
    Option (ProgressBar Font) :=
  (clampF32 value rangeStart rangeEnd).map fun v =>
    { range_start := rangeStart
      range_end := rangeEnd
      value := v
      length := .fill
      girth := .fixed ProgressBar.DEFAULT_GIRTH
      is_vertical := false
      show_percentage := true
      text_size := none
      text_line_height := LineHeight.default
      padding := Padding.zero
      alignment := .left
      font := none
      styleClass := 0 }

/-- `ProgressBar::percentage(show_percentage)`. -/
def ProgressBar.percentage {Font : Type} (pb : ProgressBar Font) (b : Bool) :
    ProgressBar Font :=
  { pb with show_percentage := b }

/-- `ProgressBar::vertical()`. -/
def ProgressBar.vertical {Font : Type} (pb : ProgressBar Font) : ProgressBar Font :=
  { pb with is_vertical := true }

/-- The private `ProgressBar::width` helper. -/
def ProgressBar.widthDim {Font : Type} (pb : ProgressBar Font) : Length :=
  if pb.is_vertical then pb.girth else pb.length

/-- The private `ProgressBar::height` helper. -/
def ProgressBar.heightDim {Font : Type} (pb : ProgressBar Font) : Length :=
  if pb.is_vertical then pb.length else pb.girth

/-- `Widget::size` for `ProgressBar`: `(width, height)` dimensions. -/
def ProgressBar.size {Font : Type} (pb : ProgressBar Font) : Length × Length :=
  (pb.widthDim, pb.heightDim)

/-- An atomic layout node, remembering which `Length` dimensions it was
resolved against (host primitive `layout::atomic(limits, width, height)`). -/
structure AtomicNode where
  widthDim : Length
  heightDim : Length
deriving DecidableEq, Repr

/-- Modelled host primitive `layout::atomic`. -/
def layoutAtomic (w h : Length) : AtomicNode := ⟨w, h⟩

/-- `Widget::layout` for `ProgressBar`. -/
def ProgressBar.layout {Font : Type} (pb : ProgressBar Font) : AtomicNode :=
  layoutAtomic pb.widthDim pb.heightDim

/-- The text content `format!("{}%", value)` drawn by the progress bar: the
formatted value followed by a percent sign, represented by the value. -/
structure PercentLabel where
  value : ℚ
deriving DecidableEq, Repr

/-- The filled portion length computed in `ProgressBar::draw`. -/
def ProgressBar.activeProgressLength {Font : Type} (pb : ProgressBar Font)
    (length : ℚ) : ℚ :=
  if pb.range_start ≥ pb.range_end then 0
  else length * (pb.value - pb.range_start) / (pb.range_end - pb.range_start)

/-- The percentage text emitted by `ProgressBar::draw`: drawn exactly when
`show_percentage`, with content `format!("{}%", self.value)`. -/
def ProgressBar.drawText {Font : Type} (pb : ProgressBar Font) : Option PercentLabel :=
  if pb.show_percentage then some ⟨pb.value⟩ else none

end IcedExt

namespace IcedExt

/-! ## MultiPickList (src/multi_pick_list.rs) -/

/-- An icon of a handle (`multi_pick_list::Icon`). -/
structure Icon (Font : Type) where
  font : Font
  code_point : Char
  size : Option ℚ
  line_height : LineHeight
  shaping : Shaping

/-- The handle on the right side of the pick list (`multi_pick_list::Handle`). -/
inductive Handle (Font : Type) where
  | arrow (size : Option ℚ)
  | static (icon : Icon Font)
  | dynamic (closed opened : Icon Font)
  | noHandle

/-- The derived status of a `MultiPickList` (`multi_pick_list::Status`). -/
inductive Status where
  | active
  | hovered
  | opened (is_hovered : Bool)
deriving DecidableEq, Repr

/-- The `MultiPickList` widget struct.  The boxed style classes are modelled
as opaque identifiers; the `on_select` closure is a pure function. -/
structure MultiPickList (T Message Font : Type) where
  on_select : T → Message
  on_open : Option Message
  on_close : Option Message
  options : List T
  label : Option String
  selected : List T
  width : Length
  padding : Padding
  text_size : Option ℚ
  text_line_height : LineHeight
  text_shaping : Shaping
  font : Option Font
  handle : Handle Font
  styleClass : ℕ
  menu_styleClass : ℕ
  last_status : Option Status
  menu_height : Length

/-- The persistent tree state of a `MultiPickList` (`multi_pick_list::State`),
restricted to the fields `update` and `overlay` touch.  The cached paragraph
text measurements and the nested menu widget tree carry no event-relevant
data and are omitted. -/
structure PickListState where
  keyboard_modifiers : ℕ
  is_open : Bool
  hovered_option : Option ℕ
deriving DecidableEq, Repr

/-- `State::new()` for a `MultiPickList`. -/
def PickListState.new : PickListState :=
  { keyboard_modifiers := 0, is_open := false, hovered_option := none }

/-- The `let status = ...` block of `MultiPickList::update`. -/
def MultiPickList.derivedStatus (isOpen isHovered : Bool) : Status :=
  if isOpen then .opened isHovered
  else if isHovered then .hovered
  else .active

/-- The event `match` of `MultiPickList::update`: open/close on presses,
record keyboard modifiers, ignore everything else. -/
def MultiPickList.updateEvent {T Message Font : Type}
    (w : MultiPickList T Message Font) (s : PickListState) (event : Event)
    (bounds : Rectangle) (cursor : Cursor) (shell : Shell Message) :
    PickListState × Shell Message :=
  match event with
  | .mouseButtonPressed .left | .fingerPressed =>
    if s.is_open then
      ({ s with is_open := false, hovered_option := none },
        (match w.on_close with
          | some m => shell.publish m
          | none => shell).captureEvent)
    else if cursor.isOver bounds then
      ({ s with is_open := true },
        (match w.on_open with
          | some m => shell.publish m
          | none => shell).captureEvent)
    else
      (s, shell)
  | .keyboardModifiersChanged modifiers =>
    ({ s with keyboard_modifiers := modifiers }, shell)
  | _ => (s, shell)

/-- `MultiPickList::update`: the event match, followed by the status
recomputation, stored in `last_status` on `RedrawRequested` and otherwise
compared against the previous status to request a redraw. -/
def MultiPickList.update {T Message Font : Type}
    (w : MultiPickList T Message Font) (s : PickListState) (event : Event)
    (bounds : Rectangle) (cursor : Cursor) (shell : Shell Message) :
    MultiPickList T Message Font × PickListState × Shell Message :=
  let r := MultiPickList.updateEvent w s event bounds cursor shell
  let status := MultiPickList.derivedStatus r.1.is_open (cursor.isOver bounds)
  match event with
  | .windowRedrawRequested => ({ w with last_status := some status }, r.1, r.2)
  | _ =>
    match w.last_status with
    | some last =>
      if last = status then (w, r.1, r.2) else (w, r.1, r.2.requestRedraw)
    | none => (w, r.1, r.2)

/-- `MultiPickList::mouse_interaction`. -/
def MultiPickList.mouseInteraction {T Message Font : Type}
    (_w : MultiPickList T Message Font) (bounds : Rectangle) (cursor : Cursor) :
    Interaction :=
  if cursor.isOver bounds then .pointer else Interaction.default

/-- The observable output of `MultiPickList::draw`: the style query handed to
the theme catalog, the resolved handle icon, and the drawn label. -/
structure PickListDrawOut (Font : Type) where
  styleQuery : ℕ × Status
  handleIcon : Option (Icon Font)
  labelText : Option String

/-- `MultiPickList::draw`.  `iconFont` and `arrowDownIcon` stand for the
renderer constants `Renderer::ICON_FONT` and `Renderer::ARROW_DOWN_ICON`. -/
def MultiPickList.draw {T Message Font : Type}
    (w : MultiPickList T Message Font) (s : PickListState)
    (iconFont : Font) (arrowDownIcon : Char) : PickListDrawOut Font :=
  { styleQuery := (w.styleClass, w.last_status.getD Status.active)
    handleIcon :=
      match w.handle with
      | .arrow size => some ⟨iconFont, arrowDownIcon, size, LineHeight.default, .basic⟩
      | .static icon => some icon
      | .dynamic closed opened => some (if s.is_open then opened else closed)
      | .noHandle => none
    labelText := w.label }

/-! ## The dropdown menu List (multi_pick_list.rs, `mod menu`) -/

/-- The menu `List` widget (`menu::List`), restricted to the fields its
`update`, `mouse_interaction` and `draw` read.  `on_selected` is the closure
handed over by `MultiPickList::overlay`. -/
structure MenuList (T Message : Type) where
  options : List T
  selected : List T
  on_selected : T → Message
  on_option_hovered : Option (T → Message)
  padding : Padding
  text_size : Option ℚ
  text_line_height : LineHeight
  text_shaping : Shaping

/-- The per-option row height used throughout `List`:
`line_height.to_absolute(text_size) + padding.y()`. -/
def MenuList.optionHeight {T Message : Type} (l : MenuList T Message)
    (defaultTextSize : ℚ) : ℚ :=
  l.text_line_height.toAbsolute (l.text_size.getD defaultTextSize) + l.padding.y

/-- The tree state of the `List` (`menu::ListState`). -/
structure ListHoverState where
  is_hovered : Option Bool
deriving DecidableEq, Repr

/-- The event `match` of `List::update`.  `hovered` is the
`&mut Option<usize>` borrowed from the pick list state. -/
def MenuList.updateEvent {T Message : Type} (l : MenuList T Message)
    (event : Event) (bounds : Rectangle) (cursor : Cursor)
    (defaultTextSize : ℚ) (hovered : Option ℕ) (shell : Shell Message) :
    Option ℕ × Shell Message :=
  match event with
  | .mouseButtonPressed .left =>
    if cursor.isOver bounds then
      match hovered with
      | some index =>
        match l.options[index]? with
        | some option => (hovered, ((shell.publish (l.on_selected option)).captureEvent))
        | none => (hovered, shell)
      | none => (hovered, shell)
    else
      (hovered, shell)
  | .mouseCursorMoved =>
    match cursor.positionIn bounds with
    | some pos =>
      let newHovered := ratToUsize (pos.y / l.optionHeight defaultTextSize)
      let shell :=
        if hovered = some newHovered then shell
        else
          match l.options[newHovered]? with
          | some option =>
            (match l.on_option_hovered with
              | some f => shell.publish (f option)
              | none => shell).requestRedraw
          | none => shell
      (some newHovered, shell)
    | none => (hovered, shell)
  | .fingerPressed =>
    match cursor.positionIn bounds with
    | some pos =>
      let newHovered := ratToUsize (pos.y / l.optionHeight defaultTextSize)
      match l.options[newHovered]? with
      | some option =>
        (some newHovered, ((shell.publish (l.on_selected option)).captureEvent))
      | none => (some newHovered, shell)
    | none => (hovered, shell)
  | _ => (hovered, shell)

/-- `List::update`: the event match followed by the hover redraw
bookkeeping on the tree state. -/
def MenuList.update {T Message : Type} (l : MenuList T Message)
    (event : Event) (bounds : Rectangle) (cursor : Cursor)
    (defaultTextSize : ℚ) (hovered : Option ℕ) (ls : ListHoverState)
    (shell : Shell Message) : Option ℕ × ListHoverState × Shell Message :=
  let r := MenuList.updateEvent l event bounds cursor defaultTextSize hovered shell
  match event with
  | .windowRedrawRequested =>
    (r.1, { is_hovered := some (cursor.isOver bounds) }, r.2)
  | _ =>
    match ls.is_hovered with
    | some ih =>
      if ih = cursor.isOver bounds then (r.1, ls, r.2)
      else (r.1, ls, r.2.requestRedraw)
    | none => (r.1, ls, r.2)

/-- `List::mouse_interaction`. -/
def MenuList.mouseInteraction {T Message : Type} (_l : MenuList T Message)
    (bounds : Rectangle) (cursor : Cursor) : Interaction :=
  if cursor.isOver bounds then .pointer else Interaction.default

/-- The start index of the visible slice in `List::draw`:
`(offset / option_height) as usize` where `offset = viewport.y - bounds.y`. -/
def MenuList.drawStart {T Message : Type} (l : MenuList T Message)
    (bounds viewport : Rectangle) (defaultTextSize : ℚ) : ℕ :=
  ratToUsize ((viewport.y - bounds.y) / l.optionHeight defaultTextSize)

/-- The end index of the visible slice in `List::draw`:
`((offset + viewport.height) / option_height).ceil() as usize`. -/
def MenuList.drawStop {T Message : Type} (l : MenuList T Message)
    (bounds viewport : Rectangle) (defaultTextSize : ℚ) : ℕ :=
  ceilToUsize ((viewport.y - bounds.y + viewport.height) / l.optionHeight defaultTextSize)

/-- One rendered option row of `List::draw`. -/
structure DrawnOption (T : Type) where
  index : ℕ
  option : T
  isSelected : Bool
  isHovered : Bool

/-- `List::draw`: slices `options[start..end.min(len)]` — a panic (`none`)
when `start` exceeds `end.min(len)` — and renders each visible option with
its selection checkmark and hover highlight. -/
def MenuList.draw {T Message : Type} [DecidableEq T] (l : MenuList T Message)
    (bounds viewport : Rectangle) (defaultTextSize : ℚ) (hovered : Option ℕ) :
    Option (List (DrawnOption T)) :=
  let start := l.drawStart bounds viewport defaultTextSize
  let stop := min (l.drawStop bounds viewport defaultTextSize) l.options.length
  if start ≤ stop then
    some (((l.options.drop start).take (stop - start)).enum.map fun p =>
      { index := start + p.1
        option := p.2
        isSelected := decide (p.2 ∈ l.selected)
        isHovered := decide (hovered = some (start + p.1)) })
  else none

/-- The dropdown overlay built by `MultiPickList::overlay` when the menu is
open. -/
structure MenuOverlay (T Message Font : Type) where
  list : MenuList T Message
  width : ℚ
  position : Point
  targetHeight : ℚ
  menuHeight : Length
  font : Font

/-- The `menu::Menu` configuration `MultiPickList::overlay` builds: the
`on_select` closure passed to the menu is `|option| (on_select)(option)` —
the `state.is_open = false` line is commented out in the source, so the
closure publishes the message and mutates nothing. -/
def MultiPickList.overlayMenuList {T Message Font : Type}
    (w : MultiPickList T Message Font) : MenuList T Message :=
  { options := w.options
    selected := w.selected
    on_selected := w.on_select
    on_option_hovered := none
    padding := w.padding
    text_size := w.text_size
    text_line_height := LineHeight.default
    text_shaping := w.text_shaping }

/-- `MultiPickList::overlay`: a dropdown overlay exactly when the state is
open.  `defaultFont` stands for `renderer.default_font()`. -/
def MultiPickList.overlay {T Message Font : Type}
    (w : MultiPickList T Message Font) (s : PickListState) (bounds : Rectangle)
    (translation : Point) (defaultFont : Font) :
    Option (MenuOverlay T Message Font) :=
  if s.is_open then
    some
      { list := w.overlayMenuList
        width := bounds.width
        position := ⟨bounds.x + translation.x, bounds.y + translation.y⟩
        targetHeight := bounds.height
        menuHeight := w.menu_height
        font := w.font.getD defaultFont }
  else none

/-- One event step of the open dropdown menu: the `List::update` of the
overlay's list, run with the pick list state's `hovered_option` threaded
through, as `MultiPickList::overlay` wires it up. -/
def MultiPickList.menuStep {T Message Font : Type}
    (w : MultiPickList T Message Font) (s : PickListState) (event : Event)
    (listBounds : Rectangle) (cursor : Cursor) (defaultTextSize : ℚ)
    (ls : ListHoverState) (shell : Shell Message) :
    PickListState × ListHoverState × Shell Message :=
  let r := (w.overlayMenuList).update event listBounds cursor defaultTextSize
    s.hovered_option ls shell
  ({ s with hovered_option := r.1 }, r.2.1, r.2.2)

end IcedExt

namespace IcedExt

/-! ## SquareRadio (src/square_radio.rs) -/

/-- The status of a `SquareRadio` (`square_radio::Status`). -/
inductive RadioStatus where
  | active (is_selected : Bool)
  | hovered (is_selected : Bool)
deriving DecidableEq, Repr

/-- The `SquareRadio` widget struct. -/
structure SquareRadio (Message Font : Type) where
  is_selected : Bool
  on_click : Message
  size : ℚ
  width : Length
  label : Option String
  spacing : Option ℚ
  last_status : Option RadioStatus
  icon : Icon Font
  text_size : Option ℚ
  text_line_height : LineHeight
  text_shaping : Shaping
  text_wrapping : ℕ
  font : Option Font
  styleClass : ℕ

/-- `SquareRadio::DEFAULT_SPACING`. -/
def SquareRadio.DEFAULT_SPACING : ℚ := 8

/-- A resolved layout node: its size together with its children, as
`Widget::layout` hands it back to the host. -/
inductive LayoutNode where
  | mk (size : ℚ × ℚ) (children : List LayoutNode)

/-- The size of a layout node. -/
def LayoutNode.size : LayoutNode → ℚ × ℚ
  | .mk s _ => s

/-- The children of a layout node. -/
def LayoutNode.children : LayoutNode → List LayoutNode
  | .mk _ cs => cs

/-- `SquareRadio::layout`: a bare `size × size` box without a label;
with a label, the host primitive `layout::next_to_each_other` placing the
box and the measured label (of size `labelSize`, standing in for the host's
text measurement) side by side with the configured spacing — a node with
exactly those two children. -/
def SquareRadio.layout {Message Font : Type} (w : SquareRadio Message Font)
    (labelSize : ℚ × ℚ) : LayoutNode :=
  match w.label with
  | some _ =>
    LayoutNode.mk
      (w.size + w.spacing.getD SquareRadio.DEFAULT_SPACING + labelSize.1,
        max w.size labelSize.2)
      [LayoutNode.mk (w.size, w.size) [], LayoutNode.mk labelSize []]
  | none => LayoutNode.mk (w.size, w.size) []

/-- The status a `SquareRadio` draw call styles with:
`last_status.unwrap_or(Status::Active { is_selected })`. -/
def SquareRadio.drawStatus {Message Font : Type} (w : SquareRadio Message Font) :
    RadioStatus :=
  w.last_status.getD (.active w.is_selected)

/-- The observable output of `SquareRadio::draw`. -/
structure RadioDrawOut where
  styleQuery : ℕ × RadioStatus
  boxSize : ℚ × ℚ
  iconDrawn : Bool
  labelDrawn : Option String

/-- `SquareRadio::draw` against a layout node: with a label it unwraps the
first child (`children().next().unwrap()`) for the box and indexes
`layout.child(1)` for the label — a panic (`none`) when the node lacks the
children. -/
def SquareRadio.draw {Message Font : Type} (w : SquareRadio Message Font)
    (node : LayoutNode) : Option RadioDrawOut :=
  match w.label with
  | none =>
    some
      { styleQuery := (w.styleClass, w.drawStatus)
        boxSize := node.size
        iconDrawn := w.is_selected
        labelDrawn := none }
  | some lbl =>
    match node.children[0]? with
    | none => none
    | some box =>
      match node.children[1]? with
      | none => none
      | some _lblNode =>
        some
          { styleQuery := (w.styleClass, w.drawStatus)
            boxSize := box.size
            iconDrawn := w.is_selected
            labelDrawn := some lbl }

/-- `SquareRadio::update`: publishes `on_click` and captures the event on a
left press over the bounds; the widget itself (in particular `last_status`)
is never written. -/
def SquareRadio.update {Message Font : Type} (w : SquareRadio Message Font)
    (event : Event) (bounds : Rectangle) (cursor : Cursor)
    (shell : Shell Message) : SquareRadio Message Font × Shell Message :=
  match event with
  | .mouseButtonPressed .left =>
    if cursor.isOver bounds then (w, (shell.publish w.on_click).captureEvent)
    else (w, shell)
  | _ => (w, shell)

end IcedExt

namespace IcedExt

/-! ## Helper lemmas -/

/-- The redraw bookkeeping at the end of `MultiPickList::update` does not
touch the persistent state. -/
theorem MultiPickList.update_state_eq {T Message Font : Type}
    (w : MultiPickList T Message Font) (s : PickListState) (event : Event)
    (bounds : Rectangle) (cursor : Cursor) (shell : Shell Message) :
    (MultiPickList.update w s event bounds cursor shell).2.1 =
      (MultiPickList.updateEvent w s event bounds cursor shell).1 := by
  unfold MultiPickList.update
  cases event <;> cases w.last_status <;> dsimp only <;>
    first
    | rfl
    | (split <;> rfl)

/-- The redraw bookkeeping at the end of `MultiPickList::update` does not
publish messages. -/
theorem MultiPickList.update_published_eq {T Message Font : Type}
    (w : MultiPickList T Message Font) (s : PickListState) (event : Event)
    (bounds : Rectangle) (cursor : Cursor) (shell : Shell Message) :
    (MultiPickList.update w s event bounds cursor shell).2.2.published =
      (MultiPickList.updateEvent w s event bounds cursor shell).2.published := by
  unfold MultiPickList.update
  cases event <;> cases w.last_status <;> dsimp only <;>
    first
    | rfl
    | (split <;> rfl)

/-- The redraw bookkeeping at the end of `MultiPickList::update` does not
capture events. -/
theorem MultiPickList.update_captured_eq {T Message Font : Type}
    (w : MultiPickList T Message Font) (s : PickListState) (event : Event)
    (bounds : Rectangle) (cursor : Cursor) (shell : Shell Message) :
    (MultiPickList.update w s event bounds cursor shell).2.2.eventCaptured =
      (MultiPickList.updateEvent w s event bounds cursor shell).2.eventCaptured := by
  unfold MultiPickList.update
  cases event <;> cases w.last_status <;> dsimp only <;>
    first
    | rfl
    | (split <;> rfl)

/-- `MultiPickList::update` writes the widget only on `RedrawRequested`, and
then only its `last_status` field. -/
theorem MultiPickList.update_widget_eq {T Message Font : Type}
    (w : MultiPickList T Message Font) (s : PickListState) (event : Event)
    (bounds : Rectangle) (cursor : Cursor) (shell : Shell Message) :
    (MultiPickList.update w s event bounds cursor shell).1 =
      if event = Event.windowRedrawRequested then
        { w with
          last_status := some (MultiPickList.derivedStatus
            (MultiPickList.updateEvent w s event bounds cursor shell).1.is_open
            (cursor.isOver bounds)) }
      else w := by
  unfold MultiPickList.update
  cases event <;> cases w.last_status <;> dsimp only <;>
    first
    | rfl
    | (split <;> rfl)

/-- The hover redraw bookkeeping at the end of `List::update` does not touch
`hovered_option`. -/
theorem MenuList.update_hovered_eq {T Message : Type} (l : MenuList T Message)
    (event : Event) (bounds : Rectangle) (cursor : Cursor) (dts : ℚ)
    (hovered : Option ℕ) (ls : ListHoverState) (shell : Shell Message) :
    (l.update event bounds cursor dts hovered ls shell).1 =
      (l.updateEvent event bounds cursor dts hovered shell).1 := by
  unfold MenuList.update
  cases event <;> cases h : ls.is_hovered <;> dsimp only <;>
    first
    | rfl
    | (split <;> rfl)

/-- The hover redraw bookkeeping at the end of `List::update` does not
publish messages. -/
theorem MenuList.list_update_published_eq {T Message : Type} (l : MenuList T Message)
    (event : Event) (bounds : Rectangle) (cursor : Cursor) (dts : ℚ)
    (hovered : Option ℕ) (ls : ListHoverState) (shell : Shell Message) :
    (l.update event bounds cursor dts hovered ls shell).2.2.published =
      (l.updateEvent event bounds cursor dts hovered shell).2.published := by
  unfold MenuList.update
  cases event <;> cases h : ls.is_hovered <;> dsimp only <;>
    first
    | rfl
    | (split <;> rfl)

/-! ## C4: overlay exactly when the menu is open -/

/-- C4: `MultiPickList::overlay` returns a dropdown-menu overlay exactly when
the persistent state's `is_open` flag is true, and `None` whenever it is
false. -/
theorem multiPickList_overlay_iff_open {T Message Font : Type}
    (w : MultiPickList T Message Font) (s : PickListState) (bounds : Rectangle)
    (translation : Point) (defaultFont : Font) :
    (w.overlay s bounds translation defaultFont).isSome = s.is_open := by
  unfold MultiPickList.overlay
  cases s.is_open <;> simp

/-! ## C7: mouse interaction is Pointer exactly over the bounds -/

/-- C7: for every cursor position and layout, `mouse_interaction` of both the
`MultiPickList` and the menu `List` is `Interaction::Pointer` exactly when
the cursor is over the layout bounds, and the default interaction exactly
otherwise. -/
theorem mouse_interaction_pointer_iff {T Message Font : Type}
    (w : MultiPickList T Message Font) (l : MenuList T Message)
    (bounds : Rectangle) (cursor : Cursor) :
    (w.mouseInteraction bounds cursor = .pointer ↔ cursor.isOver bounds = true) ∧
    (w.mouseInteraction bounds cursor = Interaction.default ↔
      cursor.isOver bounds = false) ∧
    (l.mouseInteraction bounds cursor = .pointer ↔ cursor.isOver bounds = true) ∧
    (l.mouseInteraction bounds cursor = Interaction.default ↔
      cursor.isOver bounds = false) := by
  unfold MultiPickList.mouseInteraction MenuList.mouseInteraction
  cases h : cursor.isOver bounds <;> simp [Interaction.default]

/-! ## C8: ProgressBar sizing -/

/-- C8: `ProgressBar::size` and `ProgressBar::layout` resolve an atomic node
whose width dimension is the girth when vertical and the length when
horizontal, and whose height dimension is the length when vertical and the
girth when horizontal; `ProgressBar::new` defaults the length to `Fill`, the
girth to `30.0` and the orientation to horizontal. -/
theorem progressBar_layout_dims {Font : Type} (pb : ProgressBar Font) :
    (pb.size = (if pb.is_vertical then pb.girth else pb.length,
        if pb.is_vertical then pb.length else pb.girth) ∧
      pb.layout = layoutAtomic (if pb.is_vertical then pb.girth else pb.length)
        (if pb.is_vertical then pb.length else pb.girth)) ∧
    ∀ (rangeStart rangeEnd value : ℚ) (pb' : ProgressBar Font),
      ProgressBar.new rangeStart rangeEnd value = some pb' →
      pb'.length = Length.fill ∧ pb'.girth = Length.fixed 30 ∧
        pb'.is_vertical = false := by
  constructor
  · exact ⟨rfl, rfl⟩
  · intro rangeStart rangeEnd value pb' h
    unfold ProgressBar.new clampF32 at h
    by_cases hle : rangeStart ≤ rangeEnd
    · simp only [hle, if_true, Option.map_some] at h
      cases h
      exact ⟨rfl, rfl, rfl⟩
    · simp [hle] at h

/-- The horizontal example bar behind the C8 witness: `new(0.0..=100.0, 50.0)`
with every default. -/
def pbC8 : ProgressBar Unit :=
  { range_start := 0
    range_end := 100
    value := 50
    length := .fill
    girth := .fixed 30
    is_vertical := false
    show_percentage := true
    text_size := none
    text_line_height := LineHeight.default
    padding := Padding.zero
    alignment := .left
    font := none
    styleClass := 0 }

/-- C8 witness: the defaults hold for the concrete bar `new(0.0..=100.0, 50.0)`. -/
theorem progressBar_layout_dims_witness :
    pbC8.length = Length.fill ∧ pbC8.girth = Length.fixed 30 ∧
      pbC8.is_vertical = false :=
  (progressBar_layout_dims pbC8).2 0 100 50 pbC8 rfl

end IcedExt

namespace IcedExt

/-! ## C2: MultiPickList event-to-state translation -/

/-- C2: for every event delivered to `MultiPickList::update`: a left mouse
press or finger press while the menu is open closes it, clears the hovered
option, publishes the configured `on_close` message and captures the event;
the same press while closed with the cursor over the bounds opens it,
publishes the configured `on_open` message and captures the event (and while
closed with the cursor elsewhere changes nothing); every other event leaves
`is_open` and `hovered_option` unchanged, with `ModifiersChanged` only
recording the keyboard modifiers. -/
theorem multiPickList_update_events {T Message Font : Type}
    (w : MultiPickList T Message Font) (s : PickListState) (event : Event)
    (bounds : Rectangle) (cursor : Cursor) (shell : Shell Message) :
    ((event = Event.mouseButtonPressed .left ∨ event = Event.fingerPressed) →
      (s.is_open = true →
        (MultiPickList.update w s event bounds cursor shell).2.1.is_open = false ∧
        (MultiPickList.update w s event bounds cursor shell).2.1.hovered_option
          = none ∧
        (MultiPickList.update w s event bounds cursor shell).2.2.published
          = shell.published ++ w.on_close.toList ∧
        (MultiPickList.update w s event bounds cursor shell).2.2.eventCaptured
          = true) ∧
      (s.is_open = false → cursor.isOver bounds = true →
        (MultiPickList.update w s event bounds cursor shell).2.1.is_open = true ∧
        (MultiPickList.update w s event bounds cursor shell).2.1.hovered_option
          = s.hovered_option ∧
        (MultiPickList.update w s event bounds cursor shell).2.2.published
          = shell.published ++ w.on_open.toList ∧
        (MultiPickList.update w s event bounds cursor shell).2.2.eventCaptured
          = true) ∧
      (s.is_open = false → cursor.isOver bounds = false →
        (MultiPickList.update w s event bounds cursor shell).2.1 = s ∧
        (MultiPickList.update w s event bounds cursor shell).2.2.published
          = shell.published ∧
        (MultiPickList.update w s event bounds cursor shell).2.2.eventCaptured
          = shell.eventCaptured)) ∧
    ((event ≠ Event.mouseButtonPressed .left ∧ event ≠ Event.fingerPressed) →
      (MultiPickList.update w s event bounds cursor shell).2.1.is_open
        = s.is_open ∧
      (MultiPickList.update w s event bounds cursor shell).2.1.hovered_option
        = s.hovered_option ∧
      (∀ modifiers, event = Event.keyboardModifiersChanged modifiers →
        (MultiPickList.update w s event bounds cursor shell).2.1
          = { s with keyboard_modifiers := modifiers }) ∧
      ((∀ modifiers, event ≠ Event.keyboardModifiersChanged modifiers) →
        (MultiPickList.update w s event bounds cursor shell).2.1 = s)) := by
  simp only [MultiPickList.update_state_eq, MultiPickList.update_published_eq,
    MultiPickList.update_captured_eq]
  constructor
  · rintro (rfl | rfl) <;>
    · refine ⟨fun hopen => ?_, fun hclosed hover => ?_, fun hclosed hout => ?_⟩
      · unfold MultiPickList.updateEvent
        simp only [hopen, if_true]
        cases w.on_close <;>
          simp [Shell.publish, Shell.captureEvent, Option.toList]
      · unfold MultiPickList.updateEvent
        simp only [hclosed, hover, if_false, if_true, Bool.false_eq_true]
        cases w.on_open <;>
          simp [Shell.publish, Shell.captureEvent, Option.toList]
      · unfold MultiPickList.updateEvent
        simp [hclosed, hout]
  · rintro ⟨hnotmouse, hnotfinger⟩
    cases event with
    | mouseButtonPressed b =>
      cases b <;> simp_all [MultiPickList.updateEvent]
    | mouseCursorMoved => simp [MultiPickList.updateEvent]
    | fingerPressed => exact absurd rfl hnotfinger
    | keyboardModifiersChanged m => simp [MultiPickList.updateEvent]
    | windowRedrawRequested => simp [MultiPickList.updateEvent]
    | other => simp [MultiPickList.updateEvent]

/-- The example pick list behind the concrete witnesses. -/
def pickEx : MultiPickList ℕ ℕ Unit :=
  { on_select := fun t => t + 100
    on_open := some 1
    on_close := some 2
    options := [10, 20, 30]
    label := some "pick"
    selected := [20]
    width := .shrink
    padding := ⟨5, 10, 5, 10⟩
    text_size := some 16
    text_line_height := .absolute 16
    text_shaping := .basic
    font := none
    handle := .arrow none
    styleClass := 0
    menu_styleClass := 0
    last_status := none
    menu_height := .shrink }

/-- The widget bounds used by the concrete witnesses. -/
def boundsEx : Rectangle := ⟨0, 0, 100, 20⟩

/-- An empty shell used by the concrete witnesses. -/
def shellEx : Shell ℕ := ⟨[], false, false⟩

/-- An open pick list state used by the concrete witnesses. -/
def stateOpenEx : PickListState :=
  { keyboard_modifiers := 0, is_open := true, hovered_option := some 1 }

/-- C2 witness: a left press on the concrete open pick list closes it, clears
the hover, publishes the configured `on_close` message and captures the
event. -/
theorem multiPickList_update_events_witness :
    (MultiPickList.update pickEx stateOpenEx (Event.mouseButtonPressed .left)
        boundsEx (some ⟨50, 10⟩) shellEx).2.1.is_open = false ∧
    (MultiPickList.update pickEx stateOpenEx (Event.mouseButtonPressed .left)
        boundsEx (some ⟨50, 10⟩) shellEx).2.1.hovered_option = none ∧
    (MultiPickList.update pickEx stateOpenEx (Event.mouseButtonPressed .left)
        boundsEx (some ⟨50, 10⟩) shellEx).2.2.published
      = shellEx.published ++ pickEx.on_close.toList ∧
    (MultiPickList.update pickEx stateOpenEx (Event.mouseButtonPressed .left)
        boundsEx (some ⟨50, 10⟩) shellEx).2.2.eventCaptured = true :=
  ((multiPickList_update_events pickEx stateOpenEx (Event.mouseButtonPressed .left)
      boundsEx (some ⟨50, 10⟩) shellEx).1 (Or.inl rfl)).1 rfl

/-! ## C6: update freezes the per-frame configuration -/

/-- C6: `MultiPickList::update` leaves every configuration field of the
widget value unchanged for every event; the only field it may write is
`last_status`, and it overwrites `last_status` only while handling a
`RedrawRequested` window event. -/
theorem multiPickList_update_config_frozen {T Message Font : Type}
    (w : MultiPickList T Message Font) (s : PickListState) (event : Event)
    (bounds : Rectangle) (cursor : Cursor) (shell : Shell Message) :
    (MultiPickList.update w s event bounds cursor shell).1.on_select
      = w.on_select ∧
    (MultiPickList.update w s event bounds cursor shell).1.on_open = w.on_open ∧
    (MultiPickList.update w s event bounds cursor shell).1.on_close
      = w.on_close ∧
    (MultiPickList.update w s event bounds cursor shell).1.options = w.options ∧
    (MultiPickList.update w s event bounds cursor shell).1.label = w.label ∧
    (MultiPickList.update w s event bounds cursor shell).1.selected
      = w.selected ∧
    (MultiPickList.update w s event bounds cursor shell).1.width = w.width ∧
    (MultiPickList.update w s event bounds cursor shell).1.padding = w.padding ∧
    (MultiPickList.update w s event bounds cursor shell).1.text_size
      = w.text_size ∧
    (MultiPickList.update w s event bounds cursor shell).1.text_line_height
      = w.text_line_height ∧
    (MultiPickList.update w s event bounds cursor shell).1.text_shaping
      = w.text_shaping ∧
    (MultiPickList.update w s event bounds cursor shell).1.font = w.font ∧
    (MultiPickList.update w s event bounds cursor shell).1.handle = w.handle ∧
    (MultiPickList.update w s event bounds cursor shell).1.styleClass
      = w.styleClass ∧
    (MultiPickList.update w s event bounds cursor shell).1.menu_styleClass
      = w.menu_styleClass ∧
    (MultiPickList.update w s event bounds cursor shell).1.menu_height
      = w.menu_height ∧
    (event ≠ Event.windowRedrawRequested →
      (MultiPickList.update w s event bounds cursor shell).1.last_status
        = w.last_status) := by
  simp only [MultiPickList.update_widget_eq]
  by_cases h : event = Event.windowRedrawRequested <;> simp [h]

/-- C6 witness: a cursor move on the concrete pick list leaves every
configuration field, including `last_status`, unchanged. -/
theorem multiPickList_update_config_frozen_witness :
    (MultiPickList.update pickEx stateOpenEx Event.mouseCursorMoved boundsEx
        (some ⟨50, 10⟩) shellEx).1.options = pickEx.options ∧
    (MultiPickList.update pickEx stateOpenEx Event.mouseCursorMoved boundsEx
        (some ⟨50, 10⟩) shellEx).1.last_status = pickEx.last_status :=
  ⟨(multiPickList_update_config_frozen pickEx stateOpenEx Event.mouseCursorMoved
      boundsEx (some ⟨50, 10⟩) shellEx).2.2.2.1,
    (multiPickList_update_config_frozen pickEx stateOpenEx Event.mouseCursorMoved
      boundsEx (some ⟨50, 10⟩) shellEx).2.2.2.2.2.2.2.2.2.2.2.2.2.2.2.2
      (by simp)⟩

end IcedExt

namespace IcedExt

/-! ## C3: status recomputation (corrected) -/

/-- The example square radio behind the C3 theorems: unselected, no label. -/
def radioEx : SquareRadio ℕ Unit :=
  { is_selected := false
    on_click := 7
    size := 16
    width := .shrink
    label := none
    spacing := none
    last_status := none
    icon := ⟨(), 'c', none, LineHeight.default, .basic⟩
    text_size := none
    text_line_height := LineHeight.default
    text_shaping := .basic
    text_wrapping := 0
    font := none
    styleClass := 0 }

/-- C3 counterexample: `SquareRadio::update` never recomputes a status from
the cursor position — after an update (here a `RedrawRequested` with the
cursor over the widget bounds) `last_status` is still `None` and the status
`draw` styles with is `Active`, not `Hovered`, although the cursor is over
the bounds. -/
theorem squareRadio_status_counterexample :
    Cursor.isOver (some ⟨5, 5⟩) ⟨0, 0, 100, 100⟩ = true ∧
    (SquareRadio.update radioEx Event.windowRedrawRequested ⟨0, 0, 100, 100⟩
        (some ⟨5, 5⟩) ⟨[], false, false⟩).1.last_status = none ∧
    (SquareRadio.update radioEx Event.windowRedrawRequested ⟨0, 0, 100, 100⟩
        (some ⟨5, 5⟩) ⟨[], false, false⟩).1.drawStatus
      = RadioStatus.active false ∧
    RadioStatus.active false ≠ RadioStatus.hovered false := by
  refine ⟨by norm_num [Cursor.isOver, Rectangle.contains], rfl, rfl, by decide⟩

/-- C3 amended: only the `MultiPickList` recomputes its derived status on
every update — `Opened { is_hovered }` when open, else `Hovered` when the
cursor is over the bounds, else `Active` — storing it in `last_status` on
`RedrawRequested`, and the stored status feeds only the style query of
`draw` (the handle and label drawn are independent of it).  `SquareRadio`'s
`update` computes no status at all: it leaves the widget — in particular
`last_status` — untouched, so its `draw` keeps styling with the constructed
`Active { is_selected }` status. -/
theorem status_recomputation_amended {T Message Font : Type}
    (w : MultiPickList T Message Font) (s : PickListState) (bounds : Rectangle)
    (cursor : Cursor) (shell : Shell Message) (iconFont : Font)
    (arrowDownIcon : Char) :
    ((MultiPickList.update w s Event.windowRedrawRequested bounds cursor
        shell).1.last_status
      = some (if s.is_open then Status.opened (cursor.isOver bounds)
          else if cursor.isOver bounds then Status.hovered else Status.active)) ∧
    ((MultiPickList.draw w s iconFont arrowDownIcon).styleQuery
      = (w.styleClass, w.last_status.getD Status.active)) ∧
    (∀ st, (MultiPickList.draw { w with last_status := st } s iconFont
          arrowDownIcon).handleIcon
        = (MultiPickList.draw w s iconFont arrowDownIcon).handleIcon ∧
      (MultiPickList.draw { w with last_status := st } s iconFont
          arrowDownIcon).labelText
        = (MultiPickList.draw w s iconFont arrowDownIcon).labelText) ∧
    (∀ (r : SquareRadio Message Font) (event : Event) (rb : Rectangle)
        (rc : Cursor) (rshell : Shell Message),
      (SquareRadio.update r event rb rc rshell).1 = r ∧
      (SquareRadio.update r event rb rc rshell).1.drawStatus
        = r.last_status.getD (RadioStatus.active r.is_selected)) := by
  refine ⟨?_, rfl, fun st => ⟨rfl, rfl⟩, fun r event rb rc rshell => ?_⟩
  · simp only [MultiPickList.update_widget_eq, if_true, reduceIte]
    unfold MultiPickList.updateEvent MultiPickList.derivedStatus
    rfl
  · have hr : (SquareRadio.update r event rb rc rshell).1 = r := by
      unfold SquareRadio.update
      cases event with
      | mouseButtonPressed b =>
        cases b <;> first | (dsimp only; split <;> rfl) | rfl
      | mouseCursorMoved => rfl
      | fingerPressed => rfl
      | keyboardModifiersChanged m => rfl
      | windowRedrawRequested => rfl
      | other => rfl
    exact ⟨hr, by rw [hr]; rfl⟩

end IcedExt

namespace IcedExt

/-! ## C5: selecting in the open menu keeps it open -/

/-- C5: selecting an option in the open menu does not close it: a step of
the overlay's menu `List` never changes `is_open` (the `on_select` closure
passed to the menu only republishes, the close line being commented out),
and a left mouse press or a finger press publishing an `on_selected` message
still leaves `is_open` as it was — so several options can be toggled while
the drop-down stays open. -/
theorem menu_selection_keeps_open {T Message Font : Type}
    (w : MultiPickList T Message Font) (s : PickListState) (event : Event)
    (listBounds : Rectangle) (cursor : Cursor) (dts : ℚ) (ls : ListHoverState)
    (shell : Shell Message) :
    ((w.menuStep s event listBounds cursor dts ls shell).1.is_open
      = s.is_open) ∧
    (∀ i option, event = Event.mouseButtonPressed .left →
      cursor.isOver listBounds = true → s.hovered_option = some i →
      w.options[i]? = some option →
      (w.menuStep s event listBounds cursor dts ls shell).2.2.published
        = shell.published ++ [w.on_select option] ∧
      (w.menuStep s event listBounds cursor dts ls shell).1.is_open
        = s.is_open) ∧
    (∀ pos option, event = Event.fingerPressed →
      cursor.positionIn listBounds = some pos →
      w.options[ratToUsize (pos.y / (w.overlayMenuList).optionHeight dts)]?
        = some option →
      (w.menuStep s event listBounds cursor dts ls shell).2.2.published
        = shell.published ++ [w.on_select option] ∧
      (w.menuStep s event listBounds cursor dts ls shell).1.is_open
        = s.is_open) := by
  refine ⟨rfl, fun i option hev hover hhov hget => ⟨?_, rfl⟩,
    fun pos option hev hpos hget => ⟨?_, rfl⟩⟩
  · subst hev
    show ((w.overlayMenuList).update (Event.mouseButtonPressed .left) listBounds
        cursor dts s.hovered_option ls shell).2.2.published = _
    rw [MenuList.list_update_published_eq]
    unfold MenuList.updateEvent
    simp only [hover, if_true, hhov]
    have hopts : (w.overlayMenuList).options = w.options := rfl
    simp only [hopts, hget]
    rfl
  · subst hev
    show ((w.overlayMenuList).update Event.fingerPressed listBounds cursor dts
        s.hovered_option ls shell).2.2.published = _
    rw [MenuList.list_update_published_eq]
    unfold MenuList.updateEvent
    simp only [hpos]
    have hopts : (w.overlayMenuList).options = w.options := rfl
    simp only [hopts, hget]
    rfl

/-- C5 witness: a left press on the hovered second option of the concrete
open pick list's menu publishes `on_select 20` and leaves the menu open. -/
theorem menu_selection_keeps_open_witness :
    (pickEx.menuStep stateOpenEx (Event.mouseButtonPressed .left) boundsEx
        (some ⟨50, 10⟩) 16 ⟨none⟩ shellEx).2.2.published
      = shellEx.published ++ [pickEx.on_select 20] ∧
    (pickEx.menuStep stateOpenEx (Event.mouseButtonPressed .left) boundsEx
        (some ⟨50, 10⟩) 16 ⟨none⟩ shellEx).1.is_open = stateOpenEx.is_open :=
  (menu_selection_keeps_open pickEx stateOpenEx (Event.mouseButtonPressed .left)
      boundsEx (some ⟨50, 10⟩) 16 ⟨none⟩ shellEx).2.1 1 20 rfl
    (by norm_num [Cursor.isOver, Rectangle.contains, boundsEx]) rfl rfl

end IcedExt

namespace IcedExt

/-! ## C9: unclamped hover index, guarded selection -/

/-- The example menu list behind the concrete C9/C1 statements: a single
option, an absolute 16px line height and a symmetric 2px vertical padding,
so every option row is 20px tall. -/
def menuListEx : MenuList ℕ ℕ :=
  { options := [0]
    selected := []
    on_selected := fun t => t
    on_option_hovered := none
    padding := ⟨2, 0, 2, 0⟩
    text_size := some 16
    text_line_height := .absolute 16
    text_shaping := .basic }

/-- The tall list bounds used by the concrete C9 statement. -/
def listBoundsEx : Rectangle := ⟨0, 0, 100, 200⟩

/-- C9: a cursor move inside the menu list bounds sets `hovered_option` to
`Some(floor(cursor_y / option_height))` unconditionally — concretely it can
exceed `options.len()`, as the single-option example shows — while every
press event only ever appends messages obtained from elements of the
options slice via `options.get`. -/
theorem menuList_hover_and_select {T Message : Type} (l : MenuList T Message)
    (bounds : Rectangle) (cursor : Cursor) (dts : ℚ) (hovered : Option ℕ)
    (ls : ListHoverState) (shell : Shell Message) :
    (∀ pos, cursor.positionIn bounds = some pos →
      (l.update Event.mouseCursorMoved bounds cursor dts hovered ls shell).1
        = some (ratToUsize (pos.y / l.optionHeight dts))) ∧
    (∀ event,
      (event = Event.mouseButtonPressed .left ∨ event = Event.fingerPressed) →
      ∃ picked : List T,
        (∀ t ∈ picked, t ∈ l.options) ∧
        (l.update event bounds cursor dts hovered ls shell).2.2.published
          = shell.published ++ picked.map l.on_selected) ∧
    ((menuListEx.update Event.mouseCursorMoved listBoundsEx (some ⟨5, 105⟩) 16
        none ⟨none⟩ shellEx).1 = some 5 ∧
      menuListEx.options.length ≤ 5) := by
  refine ⟨fun pos hpos => ?_, fun event hev => ?_, ?_, by decide⟩
  · rw [MenuList.update_hovered_eq]
    unfold MenuList.updateEvent
    simp only [hpos]
  · rcases hev with rfl | rfl
    · rw [MenuList.list_update_published_eq]
      unfold MenuList.updateEvent
      by_cases hover : cursor.isOver bounds = true
      · simp only [hover, if_true]
        cases hovered with
        | none => exact ⟨[], by simp, by simp⟩
        | some i =>
          cases hg : l.options[i]? with
          | none => exact ⟨[], by simp, by simp [hg]⟩
          | some t =>
            refine ⟨[t], ?_, ?_⟩
            · intro x hx
              rw [List.mem_singleton] at hx
              subst hx
              exact List.getElem?_mem hg
            · simp [hg, Shell.publish, Shell.captureEvent]
      · rw [Bool.not_eq_true] at hover
        exact ⟨[], by simp, by simp [hover]⟩
    · rw [MenuList.list_update_published_eq]
      unfold MenuList.updateEvent
      cases hpos : cursor.positionIn bounds with
      | none => exact ⟨[], by simp, by simp [hpos]⟩
      | some pos =>
        cases hg : l.options[ratToUsize (pos.y / l.optionHeight dts)]? with
        | none => exact ⟨[], by simp, by simp [hpos, hg]⟩
        | some t =>
          refine ⟨[t], ?_, ?_⟩
          · intro x hx
            rw [List.mem_singleton] at hx
            subst hx
            exact List.getElem?_mem hg
          · simp [hpos, hg, Shell.publish, Shell.captureEvent]
  · rw [MenuList.update_hovered_eq]
    unfold MenuList.updateEvent
    have hpos : Cursor.positionIn (some ⟨5, 105⟩) listBoundsEx
        = some ⟨5, 105⟩ := by
      norm_num [Cursor.positionIn, Rectangle.contains, listBoundsEx]
    simp only [hpos]
    have hoh : menuListEx.optionHeight 16 = 20 := by
      norm_num [MenuList.optionHeight, menuListEx, LineHeight.toAbsolute,
        Padding.y]
    rw [hoh]
    have : ratToUsize ((105 : ℚ) / 20) = 5 := by
      have hfloor : (⌊(105 / 20 : ℚ)⌋ : ℤ) = 5 := by norm_num
      rw [ratToUsize, hfloor]
      rfl
    rw [this]

/-- C9 witness: a cursor move at relative height 105px over the 20px rows of
the single-option example list hovers index 5, beyond the options length. -/
theorem menuList_hover_and_select_witness :
    (menuListEx.update Event.mouseCursorMoved listBoundsEx (some ⟨5, 105⟩) 16
        none ⟨none⟩ shellEx).1
      = some (ratToUsize ((105 : ℚ) / menuListEx.optionHeight 16)) :=
  (menuList_hover_and_select menuListEx listBoundsEx (some ⟨5, 105⟩) 16 none
      ⟨none⟩ shellEx).1 ⟨5, 105⟩
    (by norm_num [Cursor.positionIn, Rectangle.contains, listBoundsEx])

end IcedExt

namespace IcedExt

/-! ## C10: percent label shows the clamped raw value -/

/-- C10: the progress bar's text label is the clamped raw value followed by a
percent sign — `format!("{}%", clamp(v, start, end))`, not the value rescaled
over the range (range `0.0..=1.0` with value `0.5` displays `0.5%`, not
`50%`) — and it is drawn exactly when `show_percentage` is true. -/
theorem progressBar_percent_text {Font : Type}
    (rangeStart rangeEnd value : ℚ) (pb : ProgressBar Font) :
    (ProgressBar.new rangeStart rangeEnd value = some pb →
      pb.value = min (max value rangeStart) rangeEnd ∧
      ∀ b, (pb.percentage b).drawText
        = if b then some ⟨min (max value rangeStart) rangeEnd⟩ else none) ∧
    ((@ProgressBar.new Unit 0 1 (1 / 2)).map ProgressBar.drawText
        = some (some ⟨1 / 2⟩) ∧
      ((1 : ℚ) / 2) ≠ 50) := by
  constructor
  · intro h
    unfold ProgressBar.new clampF32 at h
    by_cases hle : rangeStart ≤ rangeEnd
    · simp only [hle, if_true, Option.map_some] at h
      cases h
      refine ⟨rfl, fun b => ?_⟩
      cases b <;> rfl
    · simp [hle] at h
  · constructor
    · have h0 : ((0 : ℚ)) ≤ 1 := by norm_num
      have hmax : max ((1 : ℚ) / 2) 0 = 1 / 2 := max_eq_left (by norm_num)
      have hmin : min ((1 : ℚ) / 2) 1 = 1 / 2 := min_eq_left (by norm_num)
      unfold ProgressBar.new clampF32
      rw [if_pos h0, hmax, hmin]
      rfl
    · norm_num

/-- The example bar behind the C10 witness: `new(0.0..=100.0, 150.0)`, whose
value is clamped down to `100`. -/
def pbC10 : ProgressBar Unit :=
  { range_start := 0
    range_end := 100
    value := 100
    length := .fill
    girth := .fixed 30
    is_vertical := false
    show_percentage := true
    text_size := none
    text_line_height := LineHeight.default
    padding := Padding.zero
    alignment := .left
    font := none
    styleClass := 0 }

/-- C10 witness: the bar built from `new(0.0..=100.0, 150.0)` carries the
clamped value and draws no text once `percentage(false)` is set. -/
theorem progressBar_percent_text_witness :
    pbC10.value = min (max 150 0) 100 ∧
      (pbC10.percentage false).drawText = none := by
  have hnew : @ProgressBar.new Unit 0 100 150 = some pbC10 := by
    have h0 : ((0 : ℚ)) ≤ 100 := by norm_num
    have hmax : max ((150 : ℚ)) 0 = 150 := max_eq_left (by norm_num)
    have hmin : min ((150 : ℚ)) 100 = 100 := min_eq_right (by norm_num)
    unfold ProgressBar.new clampF32
    rw [if_pos h0, hmax, hmin]
    rfl
  have h := (@progressBar_percent_text Unit 0 100 150 pbC10).1 hnew
  exact ⟨h.1, by simpa using h.2 false⟩

/-! ## C1: totality (corrected) -/

/-- The example menu list's rows are 20px tall for any default text size. -/
theorem menuListEx_optionHeight (dts : ℚ) : menuListEx.optionHeight dts = 20 := by
  norm_num [MenuList.optionHeight, menuListEx, LineHeight.toAbsolute, Padding.y]

/-- C1 counterexample: two host-suppliable inputs panic.  `ProgressBar::new`
with the inclusive range `1.0..=0.0` panics inside `f32::clamp` (modelled
`none`); and the menu `List::draw` with a viewport 100px below the list
bounds of the single-option 20px-row example list computes the slice
`options[5..1]`, an out-of-bounds slice index panic (modelled `none`). -/
theorem totality_counterexample :
    @ProgressBar.new Unit 1 0 (1 / 2) = none ∧
    menuListEx.draw ⟨0, 0, 100, 20⟩ ⟨0, 100, 100, 20⟩ 16 none = none := by
  constructor
  · unfold ProgressBar.new clampF32
    rw [if_neg (by norm_num)]
    rfl
  · have hstart : menuListEx.drawStart ⟨0, 0, 100, 20⟩ ⟨0, 100, 100, 20⟩ 16 = 5 := by
      have h5 : ((100 : ℚ) - 0) / 20 = 5 := by norm_num
      rw [MenuList.drawStart, menuListEx_optionHeight, h5, ratToUsize]
      norm_num
      rfl
    have hstop : menuListEx.drawStop ⟨0, 0, 100, 20⟩ ⟨0, 100, 100, 20⟩ 16 = 6 := by
      have h6 : ((100 : ℚ) - 0 + 20) / 20 = 6 := by norm_num
      rw [MenuList.drawStop, menuListEx_optionHeight, h6, ceilToUsize]
      norm_num
      rfl
    unfold MenuList.draw
    rw [hstart, hstop]
    norm_num [menuListEx]

/-- C1 amended: the widget operations are total over well-formed inputs with
these exceptions: `ProgressBar::new` survives exactly the ranges with
`start ≤ end` (a reversed inclusive range panics in `f32::clamp`); the menu
`List::draw` (for a positive option height) survives exactly the viewports
whose computed start index `floor((viewport.y - bounds.y)/option_height)` is
at most `min(end_index, options.len)` and panics on the slice otherwise;
`SquareRadio::draw` is total on every layout its own `layout` method
produces. -/
theorem totality_amended :
    (∀ rangeStart rangeEnd value : ℚ,
      (@ProgressBar.new Unit rangeStart rangeEnd value).isSome
        ↔ rangeStart ≤ rangeEnd) ∧
    (∀ (T Message : Type) [DecidableEq T] (l : MenuList T Message)
        (bounds viewport : Rectangle) (dts : ℚ) (hovered : Option ℕ),
      0 < l.optionHeight dts →
      ((l.draw bounds viewport dts hovered).isSome ↔
        l.drawStart bounds viewport dts
          ≤ min (l.drawStop bounds viewport dts) l.options.length)) ∧
    (∀ (Message Font : Type) (w : SquareRadio Message Font)
        (labelSize : ℚ × ℚ),
      (w.draw (w.layout labelSize)).isSome = true) := by
  refine ⟨fun rangeStart rangeEnd value => ?_,
    fun T Message _ l bounds viewport dts hovered _ => ?_,
    fun Message Font w labelSize => ?_⟩
  · unfold ProgressBar.new clampF32
    by_cases hle : rangeStart ≤ rangeEnd <;> simp [hle]
  · unfold MenuList.draw
    by_cases h : l.drawStart bounds viewport dts
        ≤ min (l.drawStop bounds viewport dts) l.options.length <;> simp [h]
  · unfold SquareRadio.draw SquareRadio.layout
    cases w.label <;> simp [LayoutNode.children]

/-- C1 amended witness: for the concrete example list, a 20px-row option
height is positive, and draw succeeds exactly when the start index stays at
or below the clipped end index. -/
theorem totality_amended_witness :
    (menuListEx.draw listBoundsEx ⟨0, 0, 100, 20⟩ 16 none).isSome ↔
      menuListEx.drawStart listBoundsEx ⟨0, 0, 100, 20⟩ 16
        ≤ min (menuListEx.drawStop listBoundsEx ⟨0, 0, 100, 20⟩ 16)
            menuListEx.options.length :=
  totality_amended.2.1 ℕ ℕ menuListEx listBoundsEx ⟨0, 0, 100, 20⟩ 16 none
    (by rw [menuListEx_optionHeight]; norm_num)

end IcedExt
